import Mathlib

/-!
Verification of the ai-code-review-helper Cloudflare workers:
the webhook ingestion worker (`src/cloudflare/workers/worker-webhook/src/index.ts`)
and the queue-consumer / review worker.

JavaScript dynamic values are modelled by `JValue`; property access on
`null`/`undefined` throws, which we model with `Except String`.  Platform
primitives (HMAC-SHA256, `JSON.parse`, outbound HTTP, the KV store and the
queue) are modelled as explicit parameters; the workers' own control flow,
string construction and effect ordering are translated faithfully.
-/

/-- A JavaScript/JSON runtime value.  `null` also stands for `undefined`
(the two are distinguished in JS only in ways this code never observes,
except stringification, see `JValue.jstr`). -/
inductive JValue where
  | null
  | bool (b : Bool)
  | num (n : Int)
  | str (s : String)
  | arr (elems : List JValue)
  | obj (fields : List (String × JValue))
deriving Repr, Inhabited

/-- JS truthiness. -/
def JValue.truthy : JValue → Bool
  | .null => false
  | .bool b => b
  | .num n => n != 0
  | .str s => s ≠ ""
  | .arr _ => true
  | .obj _ => true

/-- Optional-chaining property access `v?.k`: never throws, absent
properties and non-object bases give `undefined` (modelled as `.null`). -/
def JValue.getq : JValue → String → JValue
  | .obj fields, k => ((fields.lookup k).getD .null)
  | _, _ => .null

/-- Plain property access `v.k`: throws a TypeError when the base is
`null`/`undefined`, otherwise behaves like `getq`. -/
def JValue.getf : JValue → String → Except String JValue
  | .null, _ => .error "TypeError"
  | v, k => .ok (v.getq k)

/-- Optional-chaining index access `v?.[i]`. -/
def JValue.idxq : JValue → Nat → JValue
  | .arr elems, i => (elems.get? i).getD .null
  | .str s, i => match s.toList.get? i with
    | some c => .str (String.singleton c)
    | none => .null
  | _, _ => .null

/-- JS `a || b`: first operand if truthy, else second. -/
def jor (a b : JValue) : JValue := if a.truthy then a else b

/-- JS `v === "s"` for a string literal. -/
def JValue.eqStr : JValue → String → Bool
  | .str s, t => s = t
  | _, _ => false

/-- JS `v === n` for a number literal. -/
def JValue.eqNum : JValue → Int → Bool
  | .num m, n => m = n
  | _, _ => false

mutual

/-- Stringification as used by template literals (`String(v)`).
`undefined` prints as `"undefined"`. -/
def JValue.jstr : JValue → String
  | .null => "undefined"
  | .bool b => if b then "true" else "false"
  | .num n => toString n
  | .str s => s
  | .arr elems => String.intercalate "," (JValue.jstrList elems)
  | .obj _ => "[object Object]"

/-- Stringification of the elements of an array. -/
def JValue.jstrList : List JValue → List String
  | [] => []
  | v :: vs => v.jstr :: JValue.jstrList vs

end

/-- JS `v.length` as a value: defined for arrays and strings, `undefined`
otherwise. -/
def JValue.jlen : JValue → JValue
  | .arr elems => .num elems.length
  | .str s => .num s.length
  | _ => .null

/-- JS `v > 0` where `v` may be `undefined` (then `false`). -/
def JValue.gtZero : JValue → Bool
  | .num n => 0 < n
  | _ => false

/-- The element sequence produced by `for..of` over an array or string. -/
def JValue.jelems : JValue → List JValue
  | .arr elems => elems
  | .str s => s.toList.map fun c => .str (String.singleton c)
  | _ => []

/-! ## Webhook worker: signature verification -/

/-- Splitting a character list at every occurrence of a separator
(adjacent separators yield empty segments), the semantics of JS
`String.prototype.split` with a one-character separator. -/
def splitOnChar (c : Char) : List Char → List (List Char)
  | [] => [[]]
  | x :: xs =>
    let r := splitOnChar c xs
    if x = c then [] :: r
    else match r with
      | [] => [[x]]
      | y :: ys => (x :: y) :: ys

/-- JS `s.split(c)` for a one-character separator. -/
def strSplitOn (s : String) (c : Char) : List String :=
  (splitOnChar c s.data).map List.asString

/-- JS `s.startsWith(pre)`. -/
def strStartsWith (s pre : String) : Bool :=
  pre.data.isPrefixOf s.data

/-- The webhook worker environment: the two optional webhook secrets.
The KV namespace and queue bindings are modelled as parameters of the
handler. -/
structure WebhookEnv where
  githubSecret : Option String
  gitlabSecret : Option String

/-- One byte rendered as in `b.toString(16).padStart(2, '0')`. -/
def byteToHex (b : Nat) : String :=
  let digit := fun (d : Nat) => String.singleton (Nat.digitChar d)
  digit ((b / 16) % 16) ++ digit (b % 16)

/-- `hashArray.map(b => b.toString(16).padStart(2, '0')).join('')`. -/
def bytesToHex (bs : List Nat) : String :=
  String.join (bs.map byteToHex)

/-- `verifySignature` from the webhook worker.  The platform HMAC-SHA256
primitive (`crypto.subtle`) is passed in as `hmacSha256`, taking the
secret and the raw body and returning the MAC bytes. -/
def verifySignature (hmacSha256 : String → String → List Nat)
    (headers : String → Option String) (env : WebhookEnv)
    (source : String) (rawBody : String) : Bool :=
  if source = "github" then
    let sigHeader := (headers "X-Hub-Signature-256").getD ""
    if sigHeader = "" then false
    else match env.githubSecret with
      | none => false
      | some secret =>
        if secret = "" then false
        else
          let parts := strSplitOn sigHeader '='
          let algorithm := (parts.get? 0).getD ""
          if algorithm ≠ "sha256" then false
          else
            let computed := bytesToHex (hmacSha256 secret rawBody)
            match parts.get? 1 with
            | none => false
            | some signatureHex => computed = signatureHex
  else if source = "gitlab" then
    let tokenHeader := (headers "X-Gitlab-Token").getD ""
    if tokenHeader = "" then false
    else match env.gitlabSecret with
      | none => false
      | some secret => if secret = "" then false else tokenHeader = secret
  else false

/-! ## Webhook worker: event identifier -/

/-- The `payload.pull_request && payload.pull_request.node_id &&
payload.action` guard, with property accesses sequenced in source
order. -/
def ghPrGuardE (payload : JValue) : Except String Bool := do
  let pr ← payload.getf "pull_request"
  if pr.truthy then do
    let nid ← pr.getf "node_id"
    if nid.truthy then do
      let act ← payload.getf "action"
      pure act.truthy
    else pure false
  else pure false

/-- The GitHub pull-request id template. -/
def ghPrIdE (payload : JValue) : Except String String := do
  let pr ← payload.getf "pull_request"
  let nid ← pr.getf "node_id"
  let act ← payload.getf "action"
  let head ← pr.getf "head"
  let after ← payload.getf "after"
  pure ("gh_pr_" ++ nid.jstr ++ "_" ++ act.jstr ++ "_" ++
    (jor (jor (head.getq "sha") after) (.str "unknown_sha")).jstr)

/-- The `payload.ref && payload.after && payload.repository &&
payload.repository.node_id` guard. -/
def ghPushGuardE (payload : JValue) : Except String Bool := do
  let ref ← payload.getf "ref"
  if ref.truthy then do
    let after ← payload.getf "after"
    if after.truthy then do
      let repo ← payload.getf "repository"
      if repo.truthy then do
        let rnid ← repo.getf "node_id"
        pure rnid.truthy
      else pure false
    else pure false
  else pure false

/-- The GitHub push id template. -/
def ghPushIdE (payload : JValue) : Except String String := do
  let repo ← payload.getf "repository"
  let rnid ← repo.getf "node_id"
  let ref ← payload.getf "ref"
  let after ← payload.getf "after"
  pure ("gh_push_" ++ rnid.jstr ++ "_" ++ ref.jstr ++ "_" ++ after.jstr)

/-- The `payload.comment && payload.comment.node_id && payload.issue &&
payload.issue.node_id` guard. -/
def ghCommentGuardE (payload : JValue) : Except String Bool := do
  let cmt ← payload.getf "comment"
  if cmt.truthy then do
    let cnid ← cmt.getf "node_id"
    if cnid.truthy then do
      let issue ← payload.getf "issue"
      if issue.truthy then do
        let inid ← issue.getf "node_id"
        pure inid.truthy
      else pure false
    else pure false
  else pure false

/-- The GitHub comment-on-issue id template. -/
def ghCommentIdE (payload : JValue) : Except String String := do
  let cmt ← payload.getf "comment"
  let cnid ← cmt.getf "node_id"
  let issue ← payload.getf "issue"
  let inid ← issue.getf "node_id"
  pure ("gh_comment_" ++ cnid.jstr ++ "_on_issue_" ++ inid.jstr)

/-- The GitLab merge-request guard chain. -/
def glMrGuardE (payload : JValue) : Except String Bool := do
  let okind ← payload.getf "object_kind"
  if okind.eqStr "merge_request" then do
    let project ← payload.getf "project"
    if project.truthy then do
      let pid ← project.getf "id"
      if pid.truthy then do
        let oa ← payload.getf "object_attributes"
        if oa.truthy then do
          let iid ← oa.getf "iid"
          if iid.truthy then do
            let lc ← oa.getf "last_commit"
            if lc.truthy then do
              let lcid ← lc.getf "id"
              pure lcid.truthy
            else pure false
          else pure false
        else pure false
      else pure false
    else pure false
  else pure false

/-- The GitLab merge-request id template. -/
def glMrIdE (payload : JValue) : Except String String := do
  let project ← payload.getf "project"
  let pid ← project.getf "id"
  let oa ← payload.getf "object_attributes"
  let iid ← oa.getf "iid"
  let lc ← oa.getf "last_commit"
  let lcid ← lc.getf "id"
  pure ("gl_mr_" ++ pid.jstr ++ "_" ++ iid.jstr ++ "_" ++ lcid.jstr)

/-- The GitLab push guard chain. -/
def glPushGuardE (payload : JValue) : Except String Bool := do
  let okind ← payload.getf "object_kind"
  if okind.eqStr "push" then do
    let pid ← payload.getf "project_id"
    if pid.truthy then do
      let ref ← payload.getf "ref"
      if ref.truthy then do
        let after ← payload.getf "after"
        pure after.truthy
      else pure false
    else pure false
  else pure false

/-- The GitLab push id template. -/
def glPushIdE (payload : JValue) : Except String String := do
  let pid ← payload.getf "project_id"
  let ref ← payload.getf "ref"
  let after ← payload.getf "after"
  pure ("gl_push_" ++ pid.jstr ++ "_" ++ ref.jstr ++ "_" ++ after.jstr)

/-- The GitLab note guard chain. -/
def glNoteGuardE (payload : JValue) : Except String Bool := do
  let okind ← payload.getf "object_kind"
  if okind.eqStr "note" then do
    let project ← payload.getf "project"
    if project.truthy then do
      let pid ← project.getf "id"
      if pid.truthy then do
        let oa ← payload.getf "object_attributes"
        if oa.truthy then do
          let oid ← oa.getf "id"
          pure oid.truthy
        else pure false
      else pure false
    else pure false
  else pure false

/-- The GitLab note id template. -/
def glNoteIdE (payload : JValue) : Except String String := do
  let project ← payload.getf "project"
  let pid ← project.getf "id"
  let oa ← payload.getf "object_attributes"
  let oid ← oa.getf "id"
  pure ("gl_note_" ++ pid.jstr ++ "_" ++ oid.jstr)

/-- The body of `generateEventId`, inside the `try`: the per-provider
rule chains, first matching rule winning, with the GitLab delivery-UUID
header checked before any payload access.  `uuid` stands for
`crypto.randomUUID()`. -/
def generateEventIdCore (source : String) (payload : JValue)
    (headers : String → Option String) (uuid : String) :
    Except String (Option String) := do
  if source = "github" then
    let g1 ← ghPrGuardE payload
    if g1 then do
      let s ← ghPrIdE payload
      pure (some s)
    else do
      let g2 ← ghPushGuardE payload
      if g2 then do
        let s ← ghPushIdE payload
        pure (some s)
      else do
        let g3 ← ghCommentGuardE payload
        if g3 then do
          let s ← ghCommentIdE payload
          pure (some s)
        else
          let deliveryId := (headers "X-GitHub-Delivery").getD ""
          if deliveryId ≠ "" then pure (some ("gh_delivery_" ++ deliveryId))
          else pure (some ("gh_unknown_" ++ uuid))
  else if source = "gitlab" then
    let deliveryId := (headers "X-Gitlab-Event-UUID").getD ""
    if deliveryId ≠ "" then pure (some ("gl_delivery_" ++ deliveryId))
    else do
      let g1 ← glMrGuardE payload
      if g1 then do
        let s ← glMrIdE payload
        pure (some s)
      else do
        let g2 ← glPushGuardE payload
        if g2 then do
          let s ← glPushIdE payload
          pure (some s)
        else do
          let g3 ← glNoteGuardE payload
          if g3 then do
            let s ← glNoteIdE payload
            pure (some s)
          else pure (some ("gl_unknown_" ++ uuid))
  else pure none

/-- `generateEventId`: the `try/catch` wrapper around the core — an
exception degrades to an error-prefixed random id. -/
def generateEventId (source : String) (payload : JValue)
    (headers : String → Option String) (uuid : String) : Option String :=
  match generateEventIdCore source payload headers uuid with
  | .ok r => r
  | .error _ => some ("error_event_id_" ++ uuid)

/-! ## Webhook worker: the fetch handler -/

/-- Side effects performed by one webhook invocation, in order. -/
inductive WEffect where
  | kvPut (key : String) (value : String) (expirationTtl : Nat)
  | queueSend (source : String) (eventId : String) (originalPayload : JValue)
deriving Repr

/-- The JSON response of the webhook handler: HTTP status, the
`message`/`error` field, and the `eventId` field when present. -/
structure WResponse where
  status : Nat
  message : String
  eventId : Option String
deriving Repr

/-- Result of one webhook invocation: the response plus the ordered
effect trace. -/
structure FetchResult where
  response : WResponse
  effects : List WEffect
deriving Repr

/-- `JSON.stringify({ timestamp: Date.now(), status: "received" })`. -/
def dedupValue (now : Nat) : String :=
  "\x7b\"timestamp\":" ++ toString now ++ ",\"status\":\"received\"\x7d"

/-- The webhook worker `fetch` handler.  `hmacSha256` and `uuid`/`now`
stand for the platform primitives, `kvGet` for `PROCESSED_EVENTS_KV.get`,
and `parsedPayload` for the result of `JSON.parse(rawBody)` (`none` when
the body is not valid JSON).  The method, path, content-type, signature,
event-id and dedup checks are translated in source order; the dedup
check `if (existingEvent)` is JS truthiness of a `string | null` value,
so a stored empty string counts as a miss. -/
def fetchWebhook (hmacSha256 : String → String → List Nat)
    (uuid : String) (now : Nat) (kvGet : String → Option String)
    (env : WebhookEnv) (method : String) (pathname : String)
    (headers : String → Option String) (rawBody : String)
    (parsedPayload : Option JValue) : FetchResult :=
  if method ≠ "POST" then
    ⟨⟨405, "Method Not Allowed", none⟩, []⟩
  else if strStartsWith pathname "/webhook/" then
    let source := ((strSplitOn pathname '/').get? 2).getD ""
    if source ≠ "github" ∧ source ≠ "gitlab" then
      ⟨⟨400, "Invalid source. Must be \"github\" or \"gitlab\".", none⟩, []⟩
    else if headers "content-type" ≠ some "application/json" then
      ⟨⟨400, "Invalid content type. Must be application/json.", none⟩, []⟩
    else match parsedPayload with
      | none => ⟨⟨400, "Invalid JSON payload.", none⟩, []⟩
      | some payload =>
        if ¬ verifySignature hmacSha256 headers env source rawBody then
          ⟨⟨401, "Invalid signature.", none⟩, []⟩
        else match generateEventId source payload headers uuid with
          | none =>
            ⟨⟨400, "Could not determine event ID for deduplication.", none⟩, []⟩
          | some eventId =>
            if (kvGet eventId).getD "" ≠ "" then
              ⟨⟨202, "Event already processed.", some eventId⟩, []⟩
            else
              ⟨⟨200, "Webhook from " ++ source ++ " (Event ID: " ++ eventId ++
                  ") received, validated, and enqueued successfully.",
                  some eventId⟩,
               [.kvPut eventId (dedupValue now) 3600,
                .queueSend source eventId payload]⟩
  else ⟨⟨404, "Not found.", none⟩, []⟩

/-! ## Specification-side event identifier

The functions below transcribe the precedence lists of the specification
(§4.2) directly: total field access, one guard per rule, first matching
rule wins.  They are compared with `generateEventId` (translated from the
source) in the theorem for claim C4. -/

/-- Spec §4.2 provider A rule 1 guard: pull-request payload with a stable
node id and an action. -/
def ghPrGuard (p : JValue) : Bool :=
  (p.getq "pull_request").truthy &&
  ((p.getq "pull_request").getq "node_id").truthy && (p.getq "action").truthy

/-- Spec §4.2 provider A rule 2 guard: push payload with ref, after and a
repository node id. -/
def ghPushGuard (p : JValue) : Bool :=
  (p.getq "ref").truthy && (p.getq "after").truthy &&
  (p.getq "repository").truthy && ((p.getq "repository").getq "node_id").truthy

/-- Spec §4.2 provider A rule 3 guard: comment-on-issue payload. -/
def ghCommentGuard (p : JValue) : Bool :=
  (p.getq "comment").truthy && ((p.getq "comment").getq "node_id").truthy &&
  (p.getq "issue").truthy && ((p.getq "issue").getq "node_id").truthy

/-- Spec §4.2 provider A derivation: pull-request, push and comment
payload rules in that order, then the delivery-id header, then the random
fallback. -/
def githubIdSpec (p : JValue) (headers : String → Option String)
    (uuid : String) : String :=
  if ghPrGuard p then
    "gh_pr_" ++ ((p.getq "pull_request").getq "node_id").jstr ++ "_" ++
      (p.getq "action").jstr ++ "_" ++
      (jor (jor (((p.getq "pull_request").getq "head").getq "sha")
        (p.getq "after")) (.str "unknown_sha")).jstr
  else if ghPushGuard p then
    "gh_push_" ++ ((p.getq "repository").getq "node_id").jstr ++ "_" ++
      (p.getq "ref").jstr ++ "_" ++ (p.getq "after").jstr
  else if ghCommentGuard p then
    "gh_comment_" ++ ((p.getq "comment").getq "node_id").jstr ++
      "_on_issue_" ++ ((p.getq "issue").getq "node_id").jstr
  else if (headers "X-GitHub-Delivery").getD "" ≠ "" then
    "gh_delivery_" ++ (headers "X-GitHub-Delivery").getD ""
  else "gh_unknown_" ++ uuid

/-- Spec §4.2 provider B rule 2 guard: merge-request payload with project
id, internal iid and last-commit id. -/
def glMrGuard (p : JValue) : Bool :=
  (p.getq "object_kind").eqStr "merge_request" &&
  (p.getq "project").truthy && ((p.getq "project").getq "id").truthy &&
  (p.getq "object_attributes").truthy &&
  ((p.getq "object_attributes").getq "iid").truthy &&
  ((p.getq "object_attributes").getq "last_commit").truthy &&
  (((p.getq "object_attributes").getq "last_commit").getq "id").truthy

/-- Spec §4.2 provider B rule 3 guard: push payload with project id, ref
and after. -/
def glPushGuard (p : JValue) : Bool :=
  (p.getq "object_kind").eqStr "push" && (p.getq "project_id").truthy &&
  (p.getq "ref").truthy && (p.getq "after").truthy

/-- Spec §4.2 provider B rule 4 guard: note payload with project id and
note id. -/
def glNoteGuard (p : JValue) : Bool :=
  (p.getq "object_kind").eqStr "note" &&
  (p.getq "project").truthy && ((p.getq "project").getq "id").truthy &&
  (p.getq "object_attributes").truthy &&
  ((p.getq "object_attributes").getq "id").truthy

/-- Spec §4.2 provider B derivation: the delivery/event-UUID header takes
priority over every payload-derived rule, then merge-request, push and
note rules, then the random fallback. -/
def gitlabIdSpec (p : JValue) (headers : String → Option String)
    (uuid : String) : String :=
  if (headers "X-Gitlab-Event-UUID").getD "" ≠ "" then
    "gl_delivery_" ++ (headers "X-Gitlab-Event-UUID").getD ""
  else if glMrGuard p then
    "gl_mr_" ++ ((p.getq "project").getq "id").jstr ++ "_" ++
      ((p.getq "object_attributes").getq "iid").jstr ++ "_" ++
      (((p.getq "object_attributes").getq "last_commit").getq "id").jstr
  else if glPushGuard p then
    "gl_push_" ++ (p.getq "project_id").jstr ++ "_" ++
      (p.getq "ref").jstr ++ "_" ++ (p.getq "after").jstr
  else if glNoteGuard p then
    "gl_note_" ++ ((p.getq "project").getq "id").jstr ++ "_" ++
      ((p.getq "object_attributes").getq "id").jstr
  else "gl_unknown_" ++ uuid

/-! ## Queue consumer: data model -/

/-- The body of a queued webhook message (`WebhookQueueMessage`).
`reviewType` and `filesToReview` are raw JSON values (absent = `.null`). -/
structure QueueMessage where
  source : String
  eventId : String
  originalPayload : JValue
  reviewType : JValue := .null
  filesToReview : JValue := .null

/-- `ReviewTask.repository`. -/
structure RepoInfo where
  fullName : JValue
  id : JValue
  defaultBranch : JValue
deriving Repr

/-- `ReviewTask.pullRequest`. -/
structure PullRequestInfo where
  id : JValue
  number : JValue
  headSha : JValue
  diffUrl : JValue
  commentsUrl : JValue
deriving Repr

/-- `ReviewTask.mergeRequest`.  The two URLs are built by string
templates in the consumer, hence `String`. -/
structure MergeRequestInfo where
  id : JValue
  iid : JValue
  projectId : JValue
  headSha : JValue
  diffUrl : String
  notesUrl : String
deriving Repr

/-- The normalized `ReviewTask`. -/
structure ReviewTask where
  repository : RepoInfo
  pullRequest : Option PullRequestInfo
  mergeRequest : Option MergeRequestInfo
  source : String
  eventId : String
  reviewType : JValue
  filesToReview : JValue
deriving Repr

/-- The `op.pull_request ? {...} : undefined` part of the normalizer. -/
def buildPullRequestPart (prV : JValue) :
    Except String (Option PullRequestInfo) := do
  if prV.truthy then do
    let idv ← prV.getf "id"
    let numv ← prV.getf "number"
    let head ← prV.getf "head"
    let dhs ← prV.getf "diff_head_sha"
    let diffUrl ← prV.getf "diff_url"
    let commentsUrl ← prV.getf "comments_url"
    pure (some { id := idv, number := numv,
                 headSha := jor (head.getq "sha") dhs,
                 diffUrl := diffUrl, commentsUrl := commentsUrl :
                 PullRequestInfo })
  else pure none

/-- The merge-request ternary of the normalizer; `op.project.id` is a
plain access and throws when the payload has no `project`. -/
def buildMergeRequestPart (op oa okind : JValue) :
    Except String (Option MergeRequestInfo) := do
  if oa.truthy && okind.eqStr "merge_request" then do
    let idv ← oa.getf "id"
    let iid ← oa.getf "iid"
    let project ← op.getf "project"
    let pid ← project.getf "id"
    let lc ← oa.getf "last_commit"
    let dhs ← oa.getf "diff_head_sha"
    let webUrl ← project.getf "web_url"
    pure (some { id := idv, iid := iid, projectId := pid,
                 headSha := jor (lc.getq "id") dhs,
                 diffUrl := webUrl.jstr ++ "/-/merge_requests/" ++
                   iid.jstr ++ "/diffs.json",
                 notesUrl := "https://gitlab.com/api/v4/projects/" ++
                   pid.jstr ++ "/merge_requests/" ++ iid.jstr ++ "/notes" :
                 MergeRequestInfo })
  else pure none

/-- The task normalization performed at the top of the consumer loop
(building `currentTask`).  Plain property accesses that can throw are
sequenced in the `Except` monad; in particular `op.project.id` inside the
merge-request branch throws when the payload has no `project`. -/
def buildReviewTask (msg : QueueMessage) : Except String ReviewTask := do
  let op := msg.originalPayload
  let repo ← op.getf "repository"
  let proj ← op.getf "project"
  let fullName := jor (repo.getq "full_name")
    (jor (proj.getq "path_with_namespace") (.str "unknown/repo"))
  let rid := jor (repo.getq "id") (jor (proj.getq "id") (.num 0))
  let defaultBranch := jor (repo.getq "default_branch")
    (jor (proj.getq "default_branch") (.str "main"))
  let prV ← op.getf "pull_request"
  let pullRequest ← buildPullRequestPart prV
  let oa ← op.getf "object_attributes"
  let okind ← op.getf "object_kind"
  let mergeRequest ← buildMergeRequestPart op oa okind
  let rt ← op.getf "reviewType"
  let ftr ← op.getf "filesToReview"
  pure { source := msg.source, eventId := msg.eventId,
         repository :=
           { fullName := fullName, id := rid, defaultBranch := defaultBranch },
         pullRequest := pullRequest, mergeRequest := mergeRequest,
         reviewType := jor msg.reviewType (jor rt (.str "general")),
         filesToReview := jor msg.filesToReview (jor ftr (.arr [])) }

/-! ## Queue consumer: review invoker -/

/-- Outcome of one outbound `fetch`: a response with a status and body
text, or a network-level exception. -/
inductive HttpOutcome where
  | response (status : Nat) (body : String)
  | networkError (msg : String)

/-- `response.ok`. -/
def HttpOutcome.isOk : HttpOutcome → Bool
  | .response status _ => 200 ≤ status && status ≤ 299
  | .networkError _ => false

/-- The `LLMResponse` record.  After the success-path spread the comment,
summary and error fields hold whatever JSON the inner content carried,
hence `JValue`. -/
structure LLMResponse where
  success : Bool
  comments : JValue := .null
  summary : JValue := .null
  error : JValue := .null
  rawResponse : JValue := .null
  isRetryable : Option Bool := none
deriving Repr

/-- The per-file loop of the prompt builder
(`task.filesToReview.forEach`): each file is accessed with plain
property accesses (`file.path`, `file.diff`, `file.content`), which
throw on a `null` element. -/
def forEachFile : List JValue → Except String Unit
  | [] => .ok ()
  | f :: fs => do
    let _ ← f.getf "path"
    let _ ← f.getf "diff"
    let _ ← f.getf "content"
    forEachFile fs

/-- The file section of the prompt builder (consumer lines 198-206),
which runs BEFORE the `try` of `callLLM`: when `filesToReview` is truthy
with `length > 0`, `forEach` is invoked on it — a TypeError when the
value is not an array (for example a truthy string, whose `length` is
positive but which has no `forEach`). -/
def promptFilesStep (task : ReviewTask) : Except String Unit :=
  if task.filesToReview.truthy && task.filesToReview.jlen.gtZero then
    match task.filesToReview with
    | .arr files => forEachFile files
    | _ => .error "TypeError"
  else .ok ()

/-- The `try` block of `callLLM` (consumer lines 211-255).  `parseJson`
stands for `JSON.parse` (`none` = throws) and `httpResult` for the
outcome of the single outbound `fetch`; the error message strings
abbreviate the host-supplied dynamic parts.  `jsonResponse.choices` is a
plain access: when the 2xx body parses to JSON `null` it throws into the
outer catch, which classifies the failure as retryable. -/
def callLLMResponse (parseJson : String → Option JValue)
    (httpResult : HttpOutcome) : LLMResponse :=
  match httpResult with
  | .networkError m =>
    { success := false, error := .str ("Network error calling LLM: " ++ m),
      isRetryable := some true }
  | .response status body =>
    if ¬ (200 ≤ status ∧ status ≤ 299) then
      { success := false,
        error := .str ("LLM API error " ++ toString status),
        rawResponse := .str body, isRetryable := some (500 ≤ status) }
    else
      match parseJson body with
      | none =>
        { success := false, error := .str "LLM API response not JSON",
          rawResponse := .str body, isRetryable := some true }
      | some outer =>
        match outer.getf "choices" with
        | .error _ =>
          { success := false, error := .str "LLM API response not JSON",
            rawResponse := .str body, isRetryable := some true }
        | .ok choices =>
          match ((choices.idxq 0).getq "message").getq "content" with
          | .str contentStr =>
            (match parseJson contentStr with
             | none =>
               { success := false, error := .str "LLM content not valid JSON",
                 rawResponse := outer, isRetryable := some false }
             | some inner =>
               match inner.getf "success" with
               | .error _ =>
                 { success := false,
                   error := .str "LLM content not valid JSON",
                   rawResponse := outer, isRetryable := some false }
               | .ok sv =>
                 match sv with
                 | .bool b =>
                   { success := b, comments := inner.getq "comments",
                     summary := inner.getq "summary",
                     error := inner.getq "error",
                     rawResponse := outer, isRetryable := some false }
                 | _ =>
                   { success := false,
                     error := .str
                       "LLM output format error: missing success field.",
                     rawResponse := outer, isRetryable := some false })
          | _ =>
            { success := false, error := .str "LLM response structure error.",
              rawResponse := outer, isRetryable := some false }

/-- `callLLM`: prompt building (which can throw before the `try`), then
the guarded invocation.  Every failure after the prompt is built returns
a structured result. -/
def callLLM (parseJson : String → Option JValue) (task : ReviewTask)
    (httpResult : HttpOutcome) : Except String LLMResponse := do
  let _ ← promptFilesStep task
  pure (callLLMResponse parseJson httpResult)

/-! ## Queue consumer: outcome builder -/

/-- The persisted `ReviewOutcome`. -/
structure ReviewOutcome where
  taskId : String
  status : String
  repository : JValue
  pullRequest : Option PullRequestInfo
  mergeRequest : Option MergeRequestInfo
  reviewType : JValue
  comments : JValue := .null
  summary : JValue := .null
  error : JValue := .null
  llmRawResponse : JValue := .null
  timestamp : String
deriving Repr

/-- `processLLMResponse`: converts an invocation result into an outcome
record.  `nowIso` stands for `new Date().toISOString()`. -/
def processLLMResponse (llmResponse : LLMResponse) (task : ReviewTask)
    (nowIso : String) : ReviewOutcome :=
  if ¬ llmResponse.success then
    { taskId := task.eventId,
      status := if llmResponse.isRetryable = some false
        then "error_calling_llm" else "failed",
      repository := task.repository.fullName,
      pullRequest := task.pullRequest, mergeRequest := task.mergeRequest,
      reviewType := task.reviewType,
      error := jor llmResponse.error (.str "LLM processing failed."),
      llmRawResponse := llmResponse.rawResponse, timestamp := nowIso }
  else
    { taskId := task.eventId, status := "completed",
      repository := task.repository.fullName,
      pullRequest := task.pullRequest, mergeRequest := task.mergeRequest,
      reviewType := task.reviewType,
      comments := llmResponse.comments, summary := llmResponse.summary,
      llmRawResponse := llmResponse.rawResponse, timestamp := nowIso }

/-! ## Queue consumer: publisher -/

/-- Events of one consumer invocation, in order: a comment-post attempt
(with the request body it sent and whether the response was ok), a
comment whose request-body construction threw (logged, loop continues),
an attempted outcome-store put (with the key, the metadata status field
and whether the store accepted it), and the acknowledgment. -/
inductive CEvent where
  | post (idx : Nat) (requestBody : JValue) (ok : Bool)
  | postBuildFailed (idx : Nat)
  | kvPutAttempt (key : String) (status : String) (ok : Bool)
  | ack
deriving Repr

/-- The GitHub per-comment request body
`{ body, commit_id, path, line, position }`; throws when the comment
element is `null`. -/
def buildGithubCommentBody (pr : PullRequestInfo) (c : JValue) :
    Except String JValue := do
  let body ← c.getf "comment"
  let path ← c.getf "filePath"
  let line ← c.getf "lineNumber"
  let pos ← c.getf "position"
  pure (.obj [("body", body), ("commit_id", pr.headSha), ("path", path),
              ("line", line), ("position", pos)])

/-- The GitLab per-comment request body `{ body, position? }`: the
structured position block is attached only when the comment has a file
path and a line or position. -/
def buildGitlabCommentBody (mr : MergeRequestInfo) (c : JValue) :
    Except String JValue := do
  let body ← c.getf "comment"
  let path ← c.getf "filePath"
  let line ← c.getf "lineNumber"
  let pos ← c.getf "position"
  if path.truthy && (jor line pos).truthy then
    pure (.obj [("body", body),
      ("position", .obj [("position_type", .str "text"),
        ("base_sha", mr.headSha), ("start_sha", mr.headSha),
        ("head_sha", mr.headSha), ("new_line", jor line pos),
        ("old_path", path), ("new_path", path)])])
  else
    pure (.obj [("body", body)])

/-- The per-comment loop of `postCommentsToVCS`: every element is
processed; a builder exception or a failed/erroring post is logged and
never aborts the remaining comments. -/
def postSteps (postResult : Nat → HttpOutcome)
    (builder : JValue → Except String JValue) :
    Nat → List JValue → List CEvent
  | _, [] => []
  | i, c :: rest =>
    (match builder c with
     | .error _ => CEvent.postBuildFailed i
     | .ok body => CEvent.post i body (postResult i).isOk) ::
    postSteps postResult builder (i + 1) rest

/-- `postCommentsToVCS`.  `postResult` gives the outcome of the `fetch`
for each comment index.  An empty comment list returns before the
provider check; an unsupported provider (or a supported provider tag
without the matching PR/MR details) throws before any comment is
attempted; `for..of` over a non-iterable comments value throws. -/
def postCommentsToVCS (postResult : Nat → HttpOutcome) (task : ReviewTask)
    (comments : JValue) : Except String (List CEvent) :=
  if ¬ comments.truthy ∨ comments.jlen.eqNum 0 then .ok []
  else if hgh : task.source = "github" ∧ task.pullRequest.isSome then
    match comments with
    | .arr elems =>
      .ok (postSteps postResult
        (buildGithubCommentBody (task.pullRequest.get hgh.2)) 0 elems)
    | .str s =>
      .ok (postSteps postResult
        (buildGithubCommentBody (task.pullRequest.get hgh.2)) 0
        (s.toList.map fun ch => .str (String.singleton ch)))
    | _ => .error "TypeError"
  else if hgl : task.source = "gitlab" ∧ task.mergeRequest.isSome then
    match comments with
    | .arr elems =>
      .ok (postSteps postResult
        (buildGitlabCommentBody (task.mergeRequest.get hgl.2)) 0 elems)
    | .str s =>
      .ok (postSteps postResult
        (buildGitlabCommentBody (task.mergeRequest.get hgl.2)) 0
        (s.toList.map fun ch => .str (String.singleton ch)))
    | _ => .error "TypeError"
  else .error ("Unsupported VCS: " ++ task.source)

/-! ## Queue consumer: state machine -/

/-- The outcome-store key used on the happy path:
`review:{source}:{repository.fullName}:{pr number or mr iid}:{eventId}`. -/
def happyReviewKey (task : ReviewTask) : String :=
  let num := jor
    (match task.pullRequest with | some pr => pr.number | none => .null)
    (match task.mergeRequest with | some mr => mr.iid | none => .null)
  "review:" ++ task.source ++ ":" ++ task.repository.fullName.jstr ++ ":" ++
    num.jstr ++ ":" ++ task.eventId

/-- The outcome-store key used in the outer catch handler:
`review:{taskId}:{repository}:{number fallback chain}:{taskId}`. -/
def errorReviewKey (msg : QueueMessage) (task? : Option ReviewTask)
    (oc : ReviewOutcome) : String :=
  let n1 := match task? with
    | some t => (match t.pullRequest with | some pr => pr.number | none => .null)
    | none => .null
  let n2 := match task? with
    | some t => (match t.mergeRequest with | some mr => mr.iid | none => .null)
    | none => .null
  let n3 := (msg.originalPayload.getq "pull_request").getq "number"
  let n4 := (msg.originalPayload.getq "object_attributes").getq "iid"
  let num := jor n1 (jor n2 (jor n3 (jor n4 (.str "unknown_pr_mr"))))
  "review:" ++ oc.taskId ++ ":" ++ oc.repository.jstr ++ ":" ++ num.jstr ++
    ":" ++ oc.taskId

/-- JS `v.includes(m)`: defined on strings and arrays, gives `undefined`
(falsy) through optional chaining on `null`, throws otherwise. -/
def jsIncludes (v : JValue) (m : String) : Except String Bool :=
  match v with
  | .null => .ok false
  | .str s => .ok (decide (m.toList <:+: s.toList))
  | .arr elems => .ok (elems.any fun e => e.eqStr m)
  | _ => .error "TypeError"

/-- The mutation of an already-computed outcome inside the outer catch:
append the outer error message (unless already contained) and force a
retryable error to status `failed`. -/
def appendOuterCatch (oc : ReviewOutcome) (errMsg : String)
    (retryable : Bool) : Except String ReviewOutcome := do
  let hasIt ← jsIncludes oc.error errMsg
  let oc := if hasIt then oc
    else { oc with error :=
      (if oc.error.truthy then
        JValue.str (oc.error.jstr ++ "; Outer catch: " ++ errMsg)
      else
        JValue.str ("Outer catch: " ++ errMsg)) }
  pure (if retryable ∧ oc.status ≠ "failed"
    then { oc with status := "failed" } else oc)

/-- The failure outcome rebuilt from the raw message inside the outer
catch when no task was formed (lines 149-166 of the consumer); the
merge-request branch re-runs the plain `originalPayload.project.id`
access and therefore can itself throw. -/
def buildFailureOutcomeFromMessage (msg : QueueMessage) (nowIso : String)
    (errMsg : String) : Except String ReviewOutcome := do
  let op := msg.originalPayload
  let repository := jor ((op.getq "repository").getq "full_name")
    (jor ((op.getq "project").getq "path_with_namespace")
      (.str "unknown/repo"))
  let prV := op.getq "pull_request"
  let pullRequest ←
    if prV.truthy then do
      let idv ← prV.getf "id"
      let numv ← prV.getf "number"
      let head ← prV.getf "head"
      let diffUrl ← prV.getf "diff_url"
      let commentsUrl ← prV.getf "comments_url"
      pure (some { id := idv, number := numv, headSha := head.getq "sha",
                   diffUrl := diffUrl, commentsUrl := commentsUrl :
                   PullRequestInfo })
    else pure none
  let oa := op.getq "object_attributes"
  let mergeRequest ←
    if oa.truthy && (op.getq "object_kind").eqStr "merge_request" then do
      let idv ← oa.getf "id"
      let iid ← oa.getf "iid"
      let project ← op.getf "project"
      let pid ← project.getf "id"
      let lc ← oa.getf "last_commit"
      let webUrl ← project.getf "web_url"
      pure (some { id := idv, iid := iid, projectId := pid,
                   headSha := lc.getq "id",
                   diffUrl := webUrl.jstr ++ "/-/merge_requests/" ++
                     iid.jstr ++ "/diffs.json",
                   notesUrl := "https://gitlab.com/api/v4/projects/" ++
                     pid.jstr ++ "/merge_requests/" ++ iid.jstr ++ "/notes" :
                   MergeRequestInfo })
    else pure none
  pure { taskId := if msg.eventId ≠ "" then msg.eventId else "unknown_event",
         status := "failed", repository := repository,
         pullRequest := pullRequest, mergeRequest := mergeRequest,
         reviewType := jor msg.reviewType (.str "general"),
         error := .str ("Critical processing error before task formation: " ++
           errMsg),
         timestamp := nowIso }

/-- How one consumed message ends: a normal return (acknowledged inside
the trace), the deliberate re-throw of a retryable error for redelivery,
or an exception escaping the catch block itself. -/
inductive CResult where
  | ok
  | retryThrown
  | catchCrashed
deriving Repr, DecidableEq

/-- The outer catch block (consumer lines 129-187): reconstruct or amend
the outcome, attempt a best-effort outcome-store put (its own failure is
swallowed), then re-throw retryable errors and acknowledge everything
else.  An exception inside the reconstruction escapes uncaught. -/
def queueCatch (msg : QueueMessage) (reviewOutcome? : Option ReviewOutcome)
    (task? : Option ReviewTask) (retryable : Bool) (kvPutOk : Bool)
    (nowIso : String) (errMsg : String) : List CEvent × CResult :=
  let outcomeE : Except String ReviewOutcome :=
    match reviewOutcome?, task? with
    | none, some task =>
      .ok { taskId := task.eventId, status := "failed",
            repository := task.repository.fullName,
            pullRequest := task.pullRequest, mergeRequest := task.mergeRequest,
            reviewType := task.reviewType,
            error := .str ("Initial processing error: " ++ errMsg),
            timestamp := nowIso }
    | some oc, _ => appendOuterCatch oc errMsg retryable
    | none, none => buildFailureOutcomeFromMessage msg nowIso errMsg
  match outcomeE with
  | .error _ => ([], .catchCrashed)
  | .ok oc =>
    let evs := [CEvent.kvPutAttempt (errorReviewKey msg task? oc) oc.status
      kvPutOk]
    if retryable then (evs, .retryThrown) else (evs ++ [.ack], .ok)

/-- Processing of one queue message, given the already-computed result of
`callLLM` (which never throws).  `postResult` gives each comment-post
outcome, `kvPutOk` whether `REVIEW_RESULTS_KV.put` succeeds, `nowIso` the
timestamp.  Effect order follows the source: posts, then the happy-path
outcome put, then ack; any thrown error reaches `queueCatch`. -/
def queueProcessMessageCore (llmResponse : LLMResponse)
    (postResult : Nat → HttpOutcome) (kvPutOk : Bool) (nowIso : String)
    (msg : QueueMessage) : List CEvent × CResult :=
  match buildReviewTask msg with
  | .error em => queueCatch msg none none false kvPutOk nowIso em
  | .ok task =>
    let reviewOutcome := processLLMResponse llmResponse task nowIso
    if llmResponse.isRetryable = some true ∧ llmResponse.success = false then
      queueCatch msg (some reviewOutcome) (some task) true kvPutOk nowIso
        (jor llmResponse.error (.str "Retryable LLM error from llmResponse")).jstr
    else
      let publishE : Except String (List CEvent) :=
        if reviewOutcome.status = "completed" ∧ reviewOutcome.comments.truthy ∧
            reviewOutcome.comments.jlen.gtZero then
          postCommentsToVCS postResult task reviewOutcome.comments
        else .ok []
      match publishE with
      | .error em =>
        queueCatch msg (some reviewOutcome) (some task) false kvPutOk nowIso em
      | .ok postEvs =>
        let putEv := CEvent.kvPutAttempt (happyReviewKey task)
          reviewOutcome.status kvPutOk
        if kvPutOk then
          (postEvs ++ [putEv, .ack], .ok)
        else
          let r := queueCatch msg (some reviewOutcome) (some task) false
            kvPutOk nowIso "KVError"
          (postEvs ++ putEv :: r.1, r.2)

/-- One iteration of the consumer `queue` handler loop: normalize, invoke
the review service (`callLLM`, which can throw during prompt building —
that throw reaches the outer catch with the task already formed), and
drive the state machine.  When `callLLM` returns, the remaining steps
are `queueProcessMessageCore` applied to its result (normalization is
deterministic, so re-deriving the task inside the core is sound). -/
def queueProcessMessage (parseJson : String → Option JValue)
    (llmHttp : HttpOutcome) (postResult : Nat → HttpOutcome)
    (kvPutOk : Bool) (nowIso : String) (msg : QueueMessage) :
    List CEvent × CResult :=
  match buildReviewTask msg with
  | .error em => queueCatch msg none none false kvPutOk nowIso em
  | .ok task =>
    match callLLM parseJson task llmHttp with
    | .error em => queueCatch msg none (some task) false kvPutOk nowIso em
    | .ok llmResponse =>
      queueProcessMessageCore llmResponse postResult kvPutOk nowIso msg

/-! ## Concrete inputs used by witnesses -/

/-- A concrete stand-in for the platform HMAC primitive. -/
def hmac0 : String → String → List Nat := fun _ _ => [0]

/-- Concrete request headers: JSON content type and a GitHub signature
header matching `hmac0`. -/
def headers0 : String → Option String := fun k =>
  if k = "content-type" then some "application/json"
  else if k = "X-Hub-Signature-256" then some "sha256=00" else none

/-- A concrete webhook environment with both secrets configured. -/
def env0 : WebhookEnv := ⟨some "sec", some "tok"⟩

/-- A concrete normalized task used by witnesses. -/
def task0 : ReviewTask :=
  { repository :=
      { fullName := .str "o/r", id := .num 1, defaultBranch := .str "main" },
    pullRequest := none, mergeRequest := none, source := "github",
    eventId := "ev", reviewType := .str "general", filesToReview := .arr [] }

/-- Concrete headers whose GitHub signature header carries a trailing
`=`-separated segment after the digest. -/
def hdrs3 : String → Option String := fun k =>
  if k = "X-Hub-Signature-256" then some "sha256=00=x" else none

/-- A queued GitHub message whose payload triggers neither the
pull-request nor the merge-request branch of the normalizer. -/
def msg9 : QueueMessage :=
  { source := "github", eventId := "ev9", originalPayload := .obj [] }

/-- The task the normalizer builds for `msg9`. -/
def task9 : ReviewTask :=
  { repository :=
      { fullName := .str "unknown/repo", id := .num 0,
        defaultBranch := .str "main" },
    pullRequest := none, mergeRequest := none, source := "github",
    eventId := "ev9", reviewType := .str "general",
    filesToReview := .arr [] }

/-- A successful invocation result with no comments. -/
def llmOk : LLMResponse := { success := true }

/-- A GitLab merge-request message whose payload has `object_attributes`
and `object_kind` but no `project`. -/
def msg6 : QueueMessage :=
  { source := "gitlab", eventId := "ev6",
    originalPayload := .obj [("object_kind", .str "merge_request"),
      ("object_attributes", .obj [("iid", .num 5)])] }

/-- A GitHub pull-request message used to compare the two outcome-store
keys. -/
def msg7 : QueueMessage :=
  { source := "github", eventId := "ev7",
    originalPayload := .obj [
      ("repository", .obj [("full_name", .str "o/r")]),
      ("pull_request", .obj [("number", .num 7)])] }

/-- The task the normalizer builds for `msg7`. -/
def task7 : ReviewTask :=
  { repository :=
      { fullName := .str "o/r", id := .num 0,
        defaultBranch := .str "main" },
    pullRequest := some
      { id := .null, number := .num 7, headSha := .null,
        diffUrl := .null, commentsUrl := .null },
    mergeRequest := none, source := "github", eventId := "ev7",
    reviewType := .str "general", filesToReview := .arr [] }

/-- The comment index an event belongs to. -/
def cEventIdx : CEvent → Nat
  | .post i _ _ => i
  | .postBuildFailed i => i
  | _ => 0


/-- Plain access equals optional access on any non-null base. -/
theorem getf_eq_ok {v : JValue} (h : v ≠ .null) :
    ∀ k, v.getf k = .ok (v.getq k) := by
  cases v <;> simp_all [JValue.getf]

/-- Plain access equals optional access on any truthy base. -/
theorem getf_eq_ok_of_truthy {v : JValue} (h : v.truthy = true) :
    ∀ k, v.getf k = .ok (v.getq k) := by
  cases v <;> simp_all [JValue.truthy, JValue.getf]

/-- Plain access on `null` throws. -/
theorem getf_null (k : String) :
    JValue.getf .null k = .error "TypeError" := rfl

/-! ## C1 and C2: dedup short-circuit and record-then-enqueue -/

/-- C1 counterexample: the dedup check is `if (existingEvent)`, JS
truthiness of a `string | null`, so a stored empty string — a non-null
value returned by `get` — is treated as a miss: the handler records,
enqueues and answers 200, refuting the claim that every non-null stored
value short-circuits to 202 with no effects. -/
theorem webhook_dedup_empty_string_counterexample :
    (fun _ => some "" : String → Option String) "gh_unknown_u" = some "" ∧
    fetchWebhook hmac0 "u" 0 (fun _ => some "") env0 "POST"
      "/webhook/github" headers0 "body" (some (.obj [])) =
      ⟨⟨200, "Webhook from github (Event ID: gh_unknown_u) received, " ++
          "validated, and enqueued successfully.", some "gh_unknown_u"⟩,
       [.kvPut "gh_unknown_u" (dedupValue 0) 3600,
        .queueSend "github" "gh_unknown_u" (.obj [])]⟩ :=
  ⟨rfl, rfl⟩

/-- C1 (amended): for every POST webhook request that passes signature
verification and yields an event id, a dedup-store hit with a truthy
(non-null, non-empty) value makes the handler answer 202 with the
"already processed" message carrying the event id, with an empty effect
trace: no KV put and no queue send.  An empty-string value is falsy and
is treated as a miss. -/
theorem webhook_dedup_hit_short_circuits
    (hmacSha256 : String → String → List Nat) (uuid : String) (now : Nat)
    (kvGet : String → Option String) (env : WebhookEnv)
    (pathname : String) (headers : String → Option String) (rawBody : String)
    (payload : JValue) (src eventId existing : String)
    (hpath : strStartsWith pathname "/webhook/" = true)
    (hsrc : (strSplitOn pathname '/').get? 2 = some src)
    (hsv : src = "github" ∨ src = "gitlab")
    (hct : headers "content-type" = some "application/json")
    (hver : verifySignature hmacSha256 headers env src rawBody = true)
    (hid : generateEventId src payload headers uuid = some eventId)
    (hkv : kvGet eventId = some existing) (hne : existing ≠ "") :
    fetchWebhook hmacSha256 uuid now kvGet env "POST" pathname headers rawBody
      (some payload) =
      ⟨⟨202, "Event already processed.", some eventId⟩, []⟩ := by
  unfold fetchWebhook
  simp only [hsrc]
  rcases hsv with h | h <;> subst h <;>
    simp [hpath, hct, hver, hid, hkv, hne]

/-- Witness for C1 (amended) at a concrete GitHub request whose event id
falls back to the random `gh_unknown_` id and is present in the store
with a truthy value. -/
theorem webhook_dedup_hit_short_circuits_witness :
    fetchWebhook hmac0 "u" 0 (fun _ => some "seen") env0 "POST"
      "/webhook/github" headers0 "body" (some (.obj [])) =
      ⟨⟨202, "Event already processed.", some "gh_unknown_u"⟩, []⟩ :=
  webhook_dedup_hit_short_circuits hmac0 "u" 0 _ env0 _ headers0 "body"
    (.obj []) "github" "gh_unknown_u" "seen" rfl rfl (Or.inl rfl) rfl rfl rfl
    rfl (by decide)

/-- C2: for every POST webhook request that passes verification, yields
an event id and misses the dedup store, the effect trace is exactly one
dedup put (1-hour expiry) followed by exactly one queue send carrying the
source, event id and original payload, and the response is 200 carrying
the event id. -/
theorem webhook_dedup_miss_records_then_enqueues
    (hmacSha256 : String → String → List Nat) (uuid : String) (now : Nat)
    (kvGet : String → Option String) (env : WebhookEnv)
    (pathname : String) (headers : String → Option String) (rawBody : String)
    (payload : JValue) (src eventId : String)
    (hpath : strStartsWith pathname "/webhook/" = true)
    (hsrc : (strSplitOn pathname '/').get? 2 = some src)
    (hsv : src = "github" ∨ src = "gitlab")
    (hct : headers "content-type" = some "application/json")
    (hver : verifySignature hmacSha256 headers env src rawBody = true)
    (hid : generateEventId src payload headers uuid = some eventId)
    (hkv : kvGet eventId = none) :
    fetchWebhook hmacSha256 uuid now kvGet env "POST" pathname headers rawBody
      (some payload) =
      ⟨⟨200, "Webhook from " ++ src ++ " (Event ID: " ++ eventId ++
          ") received, validated, and enqueued successfully.", some eventId⟩,
       [.kvPut eventId (dedupValue now) 3600,
        .queueSend src eventId payload]⟩ := by
  unfold fetchWebhook
  simp only [hsrc]
  rcases hsv with h | h <;> subst h <;> simp [hpath, hct, hver, hid, hkv]

/-- Witness for C2 at a concrete GitHub request new to the dedup store. -/
theorem webhook_dedup_miss_records_then_enqueues_witness :
    fetchWebhook hmac0 "u" 0 (fun _ => none) env0 "POST"
      "/webhook/github" headers0 "body" (some (.obj [])) =
      ⟨⟨200, "Webhook from github (Event ID: gh_unknown_u) received, " ++
          "validated, and enqueued successfully.", some "gh_unknown_u"⟩,
       [.kvPut "gh_unknown_u" (dedupValue 0) 3600,
        .queueSend "github" "gh_unknown_u" (.obj [])]⟩ :=
  webhook_dedup_miss_records_then_enqueues hmac0 "u" 0 _ env0 _ headers0
    "body" (.obj []) "github" "gh_unknown_u" rfl rfl (Or.inl rfl) rfl rfl rfl
    rfl

/-! ## C10: outcome status classification -/

/-- C10: for an unsuccessful invocation result, `processLLMResponse`
chooses status `error_calling_llm` exactly when the retryable flag is the
boolean `false`, and `failed` when the flag is `true` or absent; a
successful result always yields `completed`. -/
theorem processLLMResponse_status_classification
    (llmResponse : LLMResponse) (task : ReviewTask) (nowIso : String) :
    (llmResponse.success = true →
      (processLLMResponse llmResponse task nowIso).status = "completed") ∧
    (llmResponse.success = false →
      ((processLLMResponse llmResponse task nowIso).status = "error_calling_llm"
        ↔ llmResponse.isRetryable = some false)) ∧
    (llmResponse.success = false → llmResponse.isRetryable ≠ some false →
      (processLLMResponse llmResponse task nowIso).status = "failed") := by
  unfold processLLMResponse
  refine ⟨fun hs => by simp [hs], fun hs => ?_, fun hs hr => by simp [hs, hr]⟩
  by_cases hr : llmResponse.isRetryable = some false <;> simp [hs, hr]

/-- Witness for C10: a non-retryable failure is classified
`error_calling_llm`, a flagless failure `failed`, a success
`completed`. -/
theorem processLLMResponse_status_classification_witness :
    (processLLMResponse { success := false, isRetryable := some false }
      task0 "t").status = "error_calling_llm" ∧
    (processLLMResponse { success := false } task0 "t").status = "failed" ∧
    (processLLMResponse { success := true } task0 "t").status = "completed" :=
  ⟨((processLLMResponse_status_classification
      { success := false, isRetryable := some false } task0 "t").2.1 rfl).mpr
      rfl,
   (processLLMResponse_status_classification
      { success := false } task0 "t").2.2 rfl (by simp),
   (processLLMResponse_status_classification
      { success := true } task0 "t").1 rfl⟩

/-! ## C5: review invoker retry classification -/

/-- C3 counterexample: under secret `sec` and the concrete MAC primitive
`hmac0` (hex digest `00`), the header `sha256=00=x` verifies even though
it is not `sha256=` followed by the digest: the split-destructuring keeps
only the first two `=`-separated segments, so trailing segments are
ignored, refuting the claimed exact-equality characterization. -/
theorem verifySignature_trailing_segment_counterexample :
    verifySignature hmac0 hdrs3 env0 "github" "body" = true ∧
    "sha256=00=x" ≠ "sha256=" ++ bytesToHex (hmac0 "sec" "body") := by
  constructor
  · decide
  · decide

/-- C3 (amended): `verifySignature` is total (never throws) and returns
false when the provider auth header is missing or empty, when the
configured secret is absent (or empty), or — via the characterization —
when the algorithm tag differs from sha256 or the digest/token
mismatches.  For GitHub it returns true exactly when the first
`=`-separated segment of the header is `sha256` and the second segment
equals the hex HMAC of the raw body under the secret (segments beyond
the second are ignored); for GitLab exactly when the token header equals
the configured secret; any other source yields false. -/
theorem verifySignature_characterization
    (hmacSha256 : String → String → List Nat)
    (headers : String → Option String) (env : WebhookEnv) (rawBody : String) :
    ((headers "X-Hub-Signature-256").getD "" = "" →
      verifySignature hmacSha256 headers env "github" rawBody = false) ∧
    (env.githubSecret = none →
      verifySignature hmacSha256 headers env "github" rawBody = false) ∧
    (∀ s, env.githubSecret = some s →
      (verifySignature hmacSha256 headers env "github" rawBody = true ↔
        (headers "X-Hub-Signature-256").getD "" ≠ "" ∧ s ≠ "" ∧
        (strSplitOn ((headers "X-Hub-Signature-256").getD "") '=')[0]? =
          some "sha256" ∧
        (strSplitOn ((headers "X-Hub-Signature-256").getD "") '=')[1]? =
          some (bytesToHex (hmacSha256 s rawBody)))) ∧
    ((headers "X-Gitlab-Token").getD "" = "" →
      verifySignature hmacSha256 headers env "gitlab" rawBody = false) ∧
    (env.gitlabSecret = none →
      verifySignature hmacSha256 headers env "gitlab" rawBody = false) ∧
    (∀ t, env.gitlabSecret = some t →
      (verifySignature hmacSha256 headers env "gitlab" rawBody = true ↔
        (headers "X-Gitlab-Token").getD "" ≠ "" ∧ t ≠ "" ∧
        (headers "X-Gitlab-Token").getD "" = t)) ∧
    (∀ src, src ≠ "github" → src ≠ "gitlab" →
      verifySignature hmacSha256 headers env src rawBody = false) := by
  refine ⟨?_, ?_, ?_, ?_, ?_, ?_, ?_⟩
  · intro h; simp [verifySignature, h]
  · intro h
    by_cases hs : (headers "X-Hub-Signature-256").getD "" = "" <;>
      simp [verifySignature, hs, h]
  · intro s hsec
    by_cases hs : (headers "X-Hub-Signature-256").getD "" = ""
    · simp [verifySignature, hs]
    · by_cases hse : s = ""
      · subst hse; simp [verifySignature, hs, hsec]
      · cases h0 : (strSplitOn ((headers "X-Hub-Signature-256").getD "")
            '=')[0]? with
        | none => simp [verifySignature, hs, hsec, hse, h0]
        | some alg =>
          by_cases halg : alg = "sha256"
          · subst halg
            cases h1 : (strSplitOn ((headers "X-Hub-Signature-256").getD "")
                '=')[1]? with
            | none => simp [verifySignature, hs, hsec, hse, h0, h1]
            | some sigHex =>
              by_cases hmacEq : bytesToHex (hmacSha256 s rawBody) = sigHex
              · simp [verifySignature, hs, hsec, hse, h0, h1, hmacEq]
              · simp [verifySignature, hs, hsec, hse, h0, h1, hmacEq,
                  Ne.symm hmacEq]
          · simp [verifySignature, hs, hsec, hse, h0, halg]
  · intro h; simp [verifySignature, h]
  · intro h
    by_cases hs : (headers "X-Gitlab-Token").getD "" = "" <;>
      simp [verifySignature, hs, h]
  · intro t hsec
    by_cases hs : (headers "X-Gitlab-Token").getD "" = ""
    · simp [verifySignature, hs]
    · by_cases hse : t = ""
      · subst hse; simp [verifySignature, hs, hsec]
      · by_cases htok : (headers "X-Gitlab-Token").getD "" = t <;>
          simp [verifySignature, hs, hsec, hse, htok]
  · intro src h1 h2; simp [verifySignature, h1, h2]

/-- Witness for C3 (amended): a well-formed two-segment header with the
right digest verifies, derived through the characterization. -/
theorem verifySignature_characterization_witness :
    verifySignature hmac0 headers0 env0 "github" "body" = true :=
  ((verifySignature_characterization hmac0 headers0 env0 "body").2.2.1 "sec"
    rfl).mpr (by refine ⟨by decide, by decide, by decide, by decide⟩)

/-! ## C9: task normalization population -/

/-- C9 counterexample: normalizing a GitHub message with an empty JSON
payload succeeds and populates neither `pullRequest` nor `mergeRequest`,
refuting the claim that exactly one of them is populated and that the
choice is driven by the provider tag. -/
theorem buildReviewTask_zero_populated_counterexample :
    buildReviewTask msg9 = .ok task9 ∧ task9.pullRequest = none ∧
      task9.mergeRequest = none :=
  ⟨rfl, rfl, rfl⟩

/-- Population of the pull-request field follows the payload marker. -/
theorem buildPullRequestPart_isSome (prV : JValue)
    (o : Option PullRequestInfo) (h : buildPullRequestPart prV = .ok o) :
    o.isSome = prV.truthy := by
  by_cases ht : prV.truthy = true
  · rw [buildPullRequestPart] at h
    simp only [ht, if_true, getf_eq_ok_of_truthy ht, bind, Except.bind,
      pure, Except.pure, Except.ok.injEq] at h
    subst h
    simp [ht]
  · rw [buildPullRequestPart] at h
    simp only [Bool.not_eq_true] at ht
    simp only [ht, Bool.false_eq_true, if_false, pure, Except.pure,
      Except.ok.injEq] at h
    subst h
    simp [ht]

/-- Population of the merge-request field follows the payload markers. -/
theorem buildMergeRequestPart_isSome (op oa okind : JValue)
    (o : Option MergeRequestInfo)
    (h : buildMergeRequestPart op oa okind = .ok o) :
    o.isSome = (oa.truthy && okind.eqStr "merge_request") := by
  by_cases hg : (oa.truthy && okind.eqStr "merge_request") = true
  · have hoa : oa.truthy = true := (Bool.and_eq_true _ _ |>.mp hg).1
    rw [buildMergeRequestPart] at h
    simp only [hg, if_true, getf_eq_ok_of_truthy hoa, bind, Except.bind] at h
    by_cases hop : op = .null
    · simp [hop, getf_null, bind, Except.bind] at h
    · simp only [getf_eq_ok hop, bind, Except.bind] at h
      by_cases hpn : op.getq "project" = .null
      · simp [hpn, getf_null, bind, Except.bind] at h
      · simp only [getf_eq_ok hpn, bind, Except.bind, pure, Except.pure,
          Except.ok.injEq] at h
        subst h
        simp [hg]
  · rw [buildMergeRequestPart] at h
    simp only [Bool.not_eq_true] at hg
    simp only [hg, Bool.false_eq_true, if_false, pure, Except.pure,
      Except.ok.injEq] at h
    subst h
    simp [hg]

/-- C9 (amended): whenever normalization succeeds, `pullRequest` is
populated exactly when the payload has a truthy `pull_request` field and
`mergeRequest` exactly when the payload has a truthy `object_attributes`
field together with `object_kind === "merge_request"`; the provider tag
is not consulted and zero, one or two of the fields may be populated. -/
theorem buildReviewTask_population_by_payload_shape
    (msg : QueueMessage) (t : ReviewTask)
    (h : buildReviewTask msg = .ok t) :
    t.pullRequest.isSome = (msg.originalPayload.getq "pull_request").truthy ∧
    t.mergeRequest.isSome =
      ((msg.originalPayload.getq "object_attributes").truthy &&
        (msg.originalPayload.getq "object_kind").eqStr "merge_request") := by
  rw [buildReviewTask] at h
  by_cases hop : msg.originalPayload = .null
  · simp [hop, JValue.getf, bind, Except.bind] at h
  · simp only [getf_eq_ok hop, bind, Except.bind] at h
    cases hbpr : buildPullRequestPart
        (msg.originalPayload.getq "pull_request") with
    | error e => rw [hbpr] at h; simp at h
    | ok prOpt =>
      rw [hbpr] at h
      cases hbmr : buildMergeRequestPart msg.originalPayload
          (msg.originalPayload.getq "object_attributes")
          (msg.originalPayload.getq "object_kind") with
      | error e => rw [hbmr] at h; simp at h
      | ok mrOpt =>
        rw [hbmr] at h
        simp only [pure, Except.pure, Except.ok.injEq] at h
        subst h
        exact ⟨buildPullRequestPart_isSome _ _ hbpr,
               buildMergeRequestPart_isSome _ _ _ _ hbmr⟩

/-- Witness for C9 (amended) at the concrete message `msg9`: both
population bits match the (falsy) payload markers. -/
theorem buildReviewTask_population_by_payload_shape_witness :
    task9.pullRequest.isSome =
      (msg9.originalPayload.getq "pull_request").truthy ∧
    task9.mergeRequest.isSome =
      ((msg9.originalPayload.getq "object_attributes").truthy &&
        (msg9.originalPayload.getq "object_kind").eqStr "merge_request") :=
  buildReviewTask_population_by_payload_shape msg9 task9 rfl

/-! ## C4: event identifier precedence -/

/-- The pull-request guard computation agrees with the spec guard. -/
theorem ghPrGuardE_eq (payload : JValue) (hop : payload ≠ .null) :
    ghPrGuardE payload = .ok (ghPrGuard payload) := by
  rw [ghPrGuardE, ghPrGuard]
  by_cases b1 : (payload.getq "pull_request").truthy = true
  · by_cases b2 : ((payload.getq "pull_request").getq "node_id").truthy =
        true <;>
    by_cases b3 : (payload.getq "action").truthy = true <;>
      simp [b1, b2, b3, getf_eq_ok hop, getf_eq_ok_of_truthy b1, bind,
        Except.bind, pure, Except.pure]
  · simp only [Bool.not_eq_true] at b1
    simp [b1, getf_eq_ok hop, bind, Except.bind, pure, Except.pure]

/-- The push guard computation agrees with the spec guard. -/
theorem ghPushGuardE_eq (payload : JValue) (hop : payload ≠ .null) :
    ghPushGuardE payload = .ok (ghPushGuard payload) := by
  rw [ghPushGuardE, ghPushGuard]
  by_cases b3 : (payload.getq "repository").truthy = true
  · by_cases b1 : (payload.getq "ref").truthy = true <;>
    by_cases b2 : (payload.getq "after").truthy = true <;>
      simp [b1, b2, b3, getf_eq_ok hop, getf_eq_ok_of_truthy b3, bind,
        Except.bind, pure, Except.pure]
  · simp only [Bool.not_eq_true] at b3
    by_cases b1 : (payload.getq "ref").truthy = true <;>
    by_cases b2 : (payload.getq "after").truthy = true <;>
      simp [b1, b2, b3, getf_eq_ok hop, bind, Except.bind, pure, Except.pure]

/-- The comment guard computation agrees with the spec guard. -/
theorem ghCommentGuardE_eq (payload : JValue) (hop : payload ≠ .null) :
    ghCommentGuardE payload = .ok (ghCommentGuard payload) := by
  rw [ghCommentGuardE, ghCommentGuard]
  by_cases b1 : (payload.getq "comment").truthy = true
  · by_cases b3 : (payload.getq "issue").truthy = true
    · by_cases b2 : ((payload.getq "comment").getq "node_id").truthy =
          true <;>
        simp [b1, b2, b3, getf_eq_ok hop, getf_eq_ok_of_truthy b1,
          getf_eq_ok_of_truthy b3, bind, Except.bind, pure, Except.pure]
    · simp only [Bool.not_eq_true] at b3
      by_cases b2 : ((payload.getq "comment").getq "node_id").truthy =
          true <;>
        simp [b1, b2, b3, getf_eq_ok hop, getf_eq_ok_of_truthy b1, bind,
          Except.bind, pure, Except.pure]
  · simp only [Bool.not_eq_true] at b1
    simp [b1, getf_eq_ok hop, bind, Except.bind, pure, Except.pure]

/-- The merge-request guard computation agrees with the spec guard. -/
theorem glMrGuardE_eq (payload : JValue) (hop : payload ≠ .null) :
    glMrGuardE payload = .ok (glMrGuard payload) := by
  rw [glMrGuardE, glMrGuard]
  by_cases k : (payload.getq "object_kind").eqStr "merge_request" = true
  · by_cases b2 : (payload.getq "project").truthy = true
    · by_cases b4 : (payload.getq "object_attributes").truthy = true
      · by_cases b6 : ((payload.getq "object_attributes").getq
            "last_commit").truthy = true
        · by_cases b3 : ((payload.getq "project").getq "id").truthy =
              true <;>
          by_cases b5 : ((payload.getq "object_attributes").getq
              "iid").truthy = true <;>
            simp [k, b2, b3, b4, b5, b6, getf_eq_ok hop,
              getf_eq_ok_of_truthy b2, getf_eq_ok_of_truthy b4,
              getf_eq_ok_of_truthy b6, bind, Except.bind, pure, Except.pure]
        · simp only [Bool.not_eq_true] at b6
          by_cases b3 : ((payload.getq "project").getq "id").truthy =
              true <;>
          by_cases b5 : ((payload.getq "object_attributes").getq
              "iid").truthy = true <;>
            simp [k, b2, b3, b4, b5, b6, getf_eq_ok hop,
              getf_eq_ok_of_truthy b2, getf_eq_ok_of_truthy b4, bind,
              Except.bind, pure, Except.pure]
      · simp only [Bool.not_eq_true] at b4
        by_cases b3 : ((payload.getq "project").getq "id").truthy = true <;>
          simp [k, b2, b3, b4, getf_eq_ok hop, getf_eq_ok_of_truthy b2,
            bind, Except.bind, pure, Except.pure]
    · simp only [Bool.not_eq_true] at b2
      simp [k, b2, getf_eq_ok hop, bind, Except.bind, pure, Except.pure]
  · simp only [Bool.not_eq_true] at k
    simp [k, getf_eq_ok hop, bind, Except.bind, pure, Except.pure]

/-- The GitLab push guard computation agrees with the spec guard. -/
theorem glPushGuardE_eq (payload : JValue) (hop : payload ≠ .null) :
    glPushGuardE payload = .ok (glPushGuard payload) := by
  rw [glPushGuardE, glPushGuard]
  by_cases k : (payload.getq "object_kind").eqStr "push" = true <;>
  by_cases b1 : (payload.getq "project_id").truthy = true <;>
  by_cases b2 : (payload.getq "ref").truthy = true <;>
    simp [k, b1, b2, getf_eq_ok hop, bind, Except.bind, pure, Except.pure]

/-- The note guard computation agrees with the spec guard. -/
theorem glNoteGuardE_eq (payload : JValue) (hop : payload ≠ .null) :
    glNoteGuardE payload = .ok (glNoteGuard payload) := by
  rw [glNoteGuardE, glNoteGuard]
  by_cases k : (payload.getq "object_kind").eqStr "note" = true
  · by_cases b2 : (payload.getq "project").truthy = true
    · by_cases b4 : (payload.getq "object_attributes").truthy = true
      · by_cases b3 : ((payload.getq "project").getq "id").truthy = true <;>
          simp [k, b2, b3, b4, getf_eq_ok hop, getf_eq_ok_of_truthy b2,
            getf_eq_ok_of_truthy b4, bind, Except.bind, pure, Except.pure]
      · simp only [Bool.not_eq_true] at b4
        by_cases b3 : ((payload.getq "project").getq "id").truthy = true <;>
          simp [k, b2, b3, b4, getf_eq_ok hop, getf_eq_ok_of_truthy b2,
            bind, Except.bind, pure, Except.pure]
    · simp only [Bool.not_eq_true] at b2
      simp [k, b2, getf_eq_ok hop, bind, Except.bind, pure, Except.pure]
  · simp only [Bool.not_eq_true] at k
    simp [k, getf_eq_ok hop, bind, Except.bind, pure, Except.pure]

/-- The pull-request id template evaluates under its guard. -/
theorem ghPrIdE_eq (payload : JValue) (hop : payload ≠ .null)
    (hg : ghPrGuard payload = true) :
    ghPrIdE payload = .ok ("gh_pr_" ++
      ((payload.getq "pull_request").getq "node_id").jstr ++ "_" ++
      (payload.getq "action").jstr ++ "_" ++
      (jor (jor (((payload.getq "pull_request").getq "head").getq "sha")
        (payload.getq "after")) (.str "unknown_sha")).jstr) := by
  have b1 : (payload.getq "pull_request").truthy = true := by
    rw [ghPrGuard] at hg
    exact ((Bool.and_eq_true _ _).mp ((Bool.and_eq_true _ _).mp hg).1).1
  simp [ghPrIdE, getf_eq_ok hop, getf_eq_ok_of_truthy b1, bind, Except.bind,
    pure, Except.pure]

/-- The push id template evaluates under its guard. -/
theorem ghPushIdE_eq (payload : JValue) (hop : payload ≠ .null)
    (hg : ghPushGuard payload = true) :
    ghPushIdE payload = .ok ("gh_push_" ++
      ((payload.getq "repository").getq "node_id").jstr ++ "_" ++
      (payload.getq "ref").jstr ++ "_" ++ (payload.getq "after").jstr) := by
  have b3 : (payload.getq "repository").truthy = true := by
    rw [ghPushGuard] at hg
    exact ((Bool.and_eq_true _ _).mp ((Bool.and_eq_true _ _).mp hg).1).2
  simp [ghPushIdE, getf_eq_ok hop, getf_eq_ok_of_truthy b3, bind,
    Except.bind, pure, Except.pure]

/-- The comment id template evaluates under its guard. -/
theorem ghCommentIdE_eq (payload : JValue) (hop : payload ≠ .null)
    (hg : ghCommentGuard payload = true) :
    ghCommentIdE payload = .ok ("gh_comment_" ++
      ((payload.getq "comment").getq "node_id").jstr ++ "_on_issue_" ++
      ((payload.getq "issue").getq "node_id").jstr) := by
  rw [ghCommentGuard] at hg
  have h1 := (Bool.and_eq_true _ _).mp hg
  have h2 := (Bool.and_eq_true _ _).mp h1.1
  have b1 : (payload.getq "comment").truthy = true :=
    ((Bool.and_eq_true _ _).mp h2.1).1
  have b3 : (payload.getq "issue").truthy = true := h2.2
  simp [ghCommentIdE, getf_eq_ok hop, getf_eq_ok_of_truthy b1,
    getf_eq_ok_of_truthy b3, bind, Except.bind, pure, Except.pure]

/-- The merge-request id template evaluates under its guard. -/
theorem glMrIdE_eq (payload : JValue) (hop : payload ≠ .null)
    (hg : glMrGuard payload = true) :
    glMrIdE payload = .ok ("gl_mr_" ++
      ((payload.getq "project").getq "id").jstr ++ "_" ++
      ((payload.getq "object_attributes").getq "iid").jstr ++ "_" ++
      (((payload.getq "object_attributes").getq "last_commit").getq
        "id").jstr) := by
  rw [glMrGuard] at hg
  have h1 := (Bool.and_eq_true _ _).mp hg
  have h2 := (Bool.and_eq_true _ _).mp h1.1
  have h3 := (Bool.and_eq_true _ _).mp h2.1
  have h4 := (Bool.and_eq_true _ _).mp h3.1
  have h5 := (Bool.and_eq_true _ _).mp h4.1
  have h6 := (Bool.and_eq_true _ _).mp h5.1
  have b6 : ((payload.getq "object_attributes").getq "last_commit").truthy =
      true := h2.2
  have b4 : (payload.getq "object_attributes").truthy = true := h4.2
  have b2 : (payload.getq "project").truthy = true := h6.2
  simp [glMrIdE, getf_eq_ok hop, getf_eq_ok_of_truthy b2,
    getf_eq_ok_of_truthy b4, getf_eq_ok_of_truthy b6, bind, Except.bind,
    pure, Except.pure]

/-- The GitLab push id template evaluates on any non-null payload. -/
theorem glPushIdE_eq (payload : JValue) (hop : payload ≠ .null) :
    glPushIdE payload = .ok ("gl_push_" ++
      (payload.getq "project_id").jstr ++ "_" ++
      (payload.getq "ref").jstr ++ "_" ++ (payload.getq "after").jstr) := by
  simp [glPushIdE, getf_eq_ok hop, bind, Except.bind, pure, Except.pure]

/-- The note id template evaluates under its guard. -/
theorem glNoteIdE_eq (payload : JValue) (hop : payload ≠ .null)
    (hg : glNoteGuard payload = true) :
    glNoteIdE payload = .ok ("gl_note_" ++
      ((payload.getq "project").getq "id").jstr ++ "_" ++
      ((payload.getq "object_attributes").getq "id").jstr) := by
  rw [glNoteGuard] at hg
  have h1 := (Bool.and_eq_true _ _).mp hg
  have h2 := (Bool.and_eq_true _ _).mp h1.1
  have h3 := (Bool.and_eq_true _ _).mp h2.1
  have b4 : (payload.getq "object_attributes").truthy = true := h2.2
  have b2 : (payload.getq "project").truthy = true :=
    ((Bool.and_eq_true _ _).mp h3.1).2
  simp [glNoteIdE, getf_eq_ok hop, getf_eq_ok_of_truthy b2,
    getf_eq_ok_of_truthy b4, bind, Except.bind, pure, Except.pure]

/-- On a non-null payload the GitHub branch of `generateEventId` equals
the spec-side precedence chain. -/
theorem generateEventId_github_eq (payload : JValue)
    (headers : String → Option String) (uuid : String)
    (hop : payload ≠ .null) :
    generateEventId "github" payload headers uuid =
      some (githubIdSpec payload headers uuid) := by
  rw [generateEventId, generateEventIdCore]
  rw [if_pos (rfl : "github" = "github")]
  rw [ghPrGuardE_eq _ hop]
  by_cases g1 : ghPrGuard payload = true
  · rw [githubIdSpec]
    simp only [g1, if_true, bind, Except.bind, ghPrIdE_eq _ hop g1, pure,
      Except.pure]
  · have g1f : ghPrGuard payload = false := by simpa using g1
    rw [ghPushGuardE_eq _ hop]
    by_cases g2 : ghPushGuard payload = true
    · rw [githubIdSpec]
      simp only [g1f, g2, Bool.false_eq_true, if_false, if_true, bind,
        Except.bind, ghPushIdE_eq _ hop g2, pure, Except.pure]
    · have g2f : ghPushGuard payload = false := by simpa using g2
      rw [ghCommentGuardE_eq _ hop]
      by_cases g3 : ghCommentGuard payload = true
      · rw [githubIdSpec]
        simp only [g1f, g2f, g3, Bool.false_eq_true, if_false, if_true,
          bind, Except.bind, ghCommentIdE_eq _ hop g3, pure, Except.pure]
      · have g3f : ghCommentGuard payload = false := by simpa using g3
        rw [githubIdSpec]
        by_cases d : (headers "X-GitHub-Delivery").getD "" = "" <;>
          simp [g1f, g2f, g3f, d, bind, Except.bind, pure, Except.pure]

/-- On a non-null payload the GitLab branch of `generateEventId` equals
the spec-side precedence chain, the delivery header first. -/
theorem generateEventId_gitlab_eq (payload : JValue)
    (headers : String → Option String) (uuid : String)
    (hop : payload ≠ .null) :
    generateEventId "gitlab" payload headers uuid =
      some (gitlabIdSpec payload headers uuid) := by
  rw [generateEventId, generateEventIdCore]
  rw [if_neg (by decide : ¬ ("gitlab" = "github")),
    if_pos (rfl : "gitlab" = "gitlab")]
  rw [gitlabIdSpec]
  by_cases d : (headers "X-Gitlab-Event-UUID").getD "" = ""
  · rw [glMrGuardE_eq _ hop]
    by_cases g1 : glMrGuard payload = true
    · simp only [d, ne_eq, not_true_eq_false, Bool.false_eq_true, if_false,
        g1, if_true, bind, Except.bind, glMrIdE_eq _ hop g1, pure,
        Except.pure]
    · have g1f : glMrGuard payload = false := by simpa using g1
      rw [glPushGuardE_eq _ hop]
      by_cases g2 : glPushGuard payload = true
      · simp only [d, ne_eq, not_true_eq_false, Bool.false_eq_true,
          if_false, g1f, g2, if_true, bind, Except.bind,
          glPushIdE_eq _ hop, pure, Except.pure]
      · have g2f : glPushGuard payload = false := by simpa using g2
        rw [glNoteGuardE_eq _ hop]
        by_cases g3 : glNoteGuard payload = true
        · simp only [d, ne_eq, not_true_eq_false, Bool.false_eq_true,
            if_false, g1f, g2f, g3, if_true, bind, Except.bind,
            glNoteIdE_eq _ hop g3, pure, Except.pure]
        · have g3f : glNoteGuard payload = false := by simpa using g3
          simp [d, g1f, g2f, g3f, bind, Except.bind, pure, Except.pure]
  · simp [d, pure, Except.pure]

/-- C4: `generateEventId` follows the per-provider precedence with the
first matching rule winning — provider A tries the pull-request, push and
comment payload rules, then the delivery-id header, then the random
`unknown` id, while provider B tries the delivery-UUID header before any
payload rule — it returns `none` exactly when the provider is neither
`github` nor `gitlab`, and an internal exception (here: property access
on a null payload) degrades to an `error_event_id_` id instead of a
throw or a `none`. -/
theorem generateEventId_precedence (headers : String → Option String)
    (uuid : String) :
    (∀ payload, payload ≠ .null →
      generateEventId "github" payload headers uuid =
        some (githubIdSpec payload headers uuid)) ∧
    (∀ payload, payload ≠ .null →
      generateEventId "gitlab" payload headers uuid =
        some (gitlabIdSpec payload headers uuid)) ∧
    (∀ source payload,
      generateEventId source payload headers uuid = none ↔
        source ≠ "github" ∧ source ≠ "gitlab") ∧
    generateEventId "github" .null headers uuid =
      some ("error_event_id_" ++ uuid) := by
  refine ⟨fun p hop => generateEventId_github_eq p headers uuid hop,
          fun p hop => generateEventId_gitlab_eq p headers uuid hop,
          ?_, ?_⟩
  · intro source payload
    constructor
    · intro h
      constructor
      · intro hs; subst hs
        by_cases hop : payload = JValue.null
        · subst hop
          rw [generateEventId] at h
          simp [generateEventIdCore, ghPrGuardE, getf_null, bind,
            Except.bind] at h
        · rw [generateEventId_github_eq payload headers uuid hop] at h
          simp at h
      · intro hs; subst hs
        by_cases hop : payload = JValue.null
        · subst hop
          by_cases d : (headers "X-Gitlab-Event-UUID").getD "" = ""
          · rw [generateEventId] at h
            simp [generateEventIdCore, glMrGuardE, getf_null, d, bind,
              Except.bind, pure, Except.pure] at h
          · rw [generateEventId] at h
            simp [generateEventIdCore, d, bind, Except.bind, pure,
              Except.pure] at h
        · rw [generateEventId_gitlab_eq payload headers uuid hop] at h
          simp at h
    · intro h
      simp [generateEventId, generateEventIdCore, h.1, h.2, pure,
        Except.pure]
  · rw [generateEventId]
    simp [generateEventIdCore, ghPrGuardE, getf_null, bind, Except.bind]

/-- Witness for C4 at concrete inputs: a push-shaped GitHub payload
derives the spec id, and an unrecognized provider yields `none`. -/
theorem generateEventId_precedence_witness :
    generateEventId "github"
      (.obj [("ref", .str "r"), ("after", .str "a"),
        ("repository", .obj [("node_id", .str "R")])]) headers0 "u" =
      some (githubIdSpec
        (.obj [("ref", .str "r"), ("after", .str "a"),
          ("repository", .obj [("node_id", .str "R")])]) headers0 "u") ∧
    generateEventId "svn" (.obj []) headers0 "u" = none :=
  ⟨(generateEventId_precedence headers0 "u").1 _
      (fun h => JValue.noConfusion h),
   ((generateEventId_precedence headers0 "u").2.2.1 "svn" (.obj [])).mpr
      (by decide)⟩

/-! ## C6: acknowledgment policy; C7: outcome keys -/

/-- C6 failing input: on a GitLab merge-request message without a
`project` field, normalization throws at `op.project.id`, and the outer
catch handler rebuilds the outcome through the same plain access and
throws again — the message is neither acknowledged nor stored nor
re-thrown as a retryable error: the exception escapes with an empty
effect trace, contradicting the claimed ack-everything-non-retryable
policy. -/
theorem queue_catch_crash_on_mr_without_project :
    queueProcessMessageCore llmOk (fun _ => .response 200 "") true "t" msg6 =
      ([], .catchCrashed) := rfl

/-- C7 counterexample: one invocation of the consumer on `msg7` with a
successful review and a failing outcome store attempts the happy-path
write under `review:github:o/r:7:ev7` and then the catch-handler write
under `review:ev7:o/r:7:ev7` — the two paths use different keys (the
first component is the provider on the happy path but the event id in
the handler), refuting the same-key claim. -/
theorem reviewOutcome_key_differs_counterexample :
    queueProcessMessageCore llmOk (fun _ => .response 200 "") false "t"
      msg7 =
      ([.kvPutAttempt "review:github:o/r:7:ev7" "completed" false,
        .kvPutAttempt "review:ev7:o/r:7:ev7" "completed" false, .ack],
       .ok) ∧
    "review:github:o/r:7:ev7" ≠ "review:ev7:o/r:7:ev7" :=
  ⟨rfl, by decide⟩

/-- C7 (amended): for every message that normalizes and completes
successfully with no comments, a ReviewOutcome put carrying the status
and timestamp metadata is attempted on the happy path under
`review:{provider}:{repository}:{number}:{eventId}`; when that put
fails, the outer handler attempts a second best-effort put under
`review:{eventId}:{repository}:{number}:{eventId}` and still
acknowledges — the two paths use those two (generally distinct) keys,
each deterministic, so retries overwrite per path. -/
theorem reviewOutcome_write_both_paths
    (llm : LLMResponse) (post : Nat → HttpOutcome) (nowIso : String)
    (msg : QueueMessage) (task : ReviewTask)
    (hbt : buildReviewTask msg = .ok task)
    (hs : llm.success = true) (hc : llm.comments = .null) :
    (queueProcessMessageCore llm post true nowIso msg =
      ([.kvPutAttempt (happyReviewKey task) "completed" true, .ack],
       .ok)) ∧
    (queueProcessMessageCore llm post false nowIso msg =
      ([.kvPutAttempt (happyReviewKey task) "completed" false,
        .kvPutAttempt
          ("review:" ++ task.eventId ++ ":" ++
            task.repository.fullName.jstr ++ ":" ++
            (jor
              (match task.pullRequest with
               | some pr => pr.number
               | none => .null)
              (jor
                (match task.mergeRequest with
                 | some mr => mr.iid
                 | none => .null)
                (jor ((msg.originalPayload.getq "pull_request").getq
                    "number")
                  (jor ((msg.originalPayload.getq
                      "object_attributes").getq "iid")
                    (.str "unknown_pr_mr"))))).jstr ++
            ":" ++ task.eventId) "completed" false, .ack], .ok)) ∧
    happyReviewKey task = "review:" ++ task.source ++ ":" ++
      task.repository.fullName.jstr ++ ":" ++
      (jor
        (match task.pullRequest with
         | some pr => pr.number
         | none => .null)
        (match task.mergeRequest with
         | some mr => mr.iid
         | none => .null)).jstr ++ ":" ++ task.eventId := by
  refine ⟨?_, ?_, rfl⟩ <;>
    simp [queueProcessMessageCore, hbt, processLLMResponse, hs, hc,
      queueCatch, appendOuterCatch, jsIncludes, errorReviewKey,
      JValue.truthy, JValue.gtZero, JValue.jlen, bind, Except.bind, pure,
      Except.pure]

/-- Witness for C7 (amended) at the concrete message `msg7`. -/
theorem reviewOutcome_write_both_paths_witness :
    queueProcessMessageCore llmOk (fun _ => .response 200 "") true "t"
      msg7 =
      ([.kvPutAttempt (happyReviewKey task7) "completed" true, .ack],
       .ok) :=
  (reviewOutcome_write_both_paths llmOk (fun _ => .response 200 "") "t"
    msg7 task7 rfl rfl rfl).1

/-! ## C8: publisher partial-failure tolerance -/

/-- The publish loop emits one event per comment. -/
theorem postSteps_length (post : Nat → HttpOutcome)
    (builder : JValue → Except String JValue) :
    ∀ (i : Nat) (cs : List JValue),
      (postSteps post builder i cs).length = cs.length := by
  intro i cs
  induction cs generalizing i with
  | nil => rfl
  | cons c rest ih => simp [postSteps, ih]

/-- The publish loop visits the comments in order: the event at position
`j` belongs to comment `i + j`. -/
theorem postSteps_idx (post : Nat → HttpOutcome)
    (builder : JValue → Except String JValue) :
    ∀ (cs : List JValue) (i j : Nat)
      (h : j < (postSteps post builder i cs).length),
      cEventIdx ((postSteps post builder i cs).get ⟨j, h⟩) = i + j := by
  intro cs
  induction cs with
  | nil => intro i j h; simp [postSteps] at h
  | cons c rest ih =>
    intro i j h
    cases j with
    | zero =>
      cases hb : builder c <;> simp [postSteps, hb, cEventIdx]
    | succ j =>
      have h2 : j < (postSteps post builder (i + 1) rest).length := by
        have := h; simp [postSteps] at this; omega
      calc cEventIdx ((postSteps post builder i (c :: rest)).get ⟨j + 1, h⟩)
          = cEventIdx ((postSteps post builder (i + 1) rest).get ⟨j, h2⟩) := by
            simp [postSteps]
        _ = (i + 1) + j := ih (i + 1) j h2
        _ = i + (j + 1) := by omega

/-- C8: every comment handed to the publisher under a supported provider
is attempted in order — the trace has exactly one event per comment,
indexed in order, whatever the per-comment post outcomes, so an HTTP
failure or network exception on an earlier comment never short-circuits
the rest; an unsupported provider (or a missing PR/MR detail) throws
before any comment is attempted; and at the consumer level the persisted
outcome status remains `completed` regardless of the post outcomes. -/
theorem postCommentsToVCS_no_short_circuit
    (post : Nat → HttpOutcome) (task : ReviewTask)
    (comments : List JValue) (hne : comments ≠ []) :
    (∀ pr, task.source = "github" → task.pullRequest = some pr →
      ∃ evs, postCommentsToVCS post task (.arr comments) = .ok evs ∧
        evs.length = comments.length ∧
        ∀ (j : Nat) (h : j < evs.length), cEventIdx (evs.get ⟨j, h⟩) = j) ∧
    (∀ mr, task.source = "gitlab" → task.mergeRequest = some mr →
      ∃ evs, postCommentsToVCS post task (.arr comments) = .ok evs ∧
        evs.length = comments.length ∧
        ∀ (j : Nat) (h : j < evs.length), cEventIdx (evs.get ⟨j, h⟩) = j) ∧
    (¬ (task.source = "github" ∧ task.pullRequest.isSome = true) →
     ¬ (task.source = "gitlab" ∧ task.mergeRequest.isSome = true) →
      postCommentsToVCS post task (.arr comments) =
        .error ("Unsupported VCS: " ++ task.source)) ∧
    (∀ (msg : QueueMessage) (llm : LLMResponse) (nowIso : String),
      buildReviewTask msg = .ok task → llm.success = true →
      llm.comments = .arr comments →
      task.source = "github" → task.pullRequest.isSome = true →
      ∃ evs, queueProcessMessageCore llm post true nowIso msg =
        (evs ++ [.kvPutAttempt (happyReviewKey task) "completed" true,
          .ack], .ok)) := by
  have hlen : ¬ ((JValue.arr comments).jlen.eqNum 0 = true) := by
    simp [JValue.jlen, JValue.eqNum, hne]
  refine ⟨?_, ?_, ?_, ?_⟩
  · intro pr hsrc hpr
    have hcond : task.source = "github" ∧ task.pullRequest.isSome :=
      ⟨hsrc, by simp [hpr]⟩
    rw [postCommentsToVCS,
      if_neg (by simp [JValue.truthy, hlen]), dif_pos hcond]
    exact ⟨_, rfl, postSteps_length post _ 0 comments,
      fun j h => by simpa using postSteps_idx post _ comments 0 j h⟩
  · intro mr hsrc hmr
    have hno : ¬ (task.source = "github" ∧ task.pullRequest.isSome = true) :=
      by simp [hsrc]
    have hcond : task.source = "gitlab" ∧ task.mergeRequest.isSome :=
      ⟨hsrc, by simp [hmr]⟩
    rw [postCommentsToVCS,
      if_neg (by simp [JValue.truthy, hlen]), dif_neg hno, dif_pos hcond]
    exact ⟨_, rfl, postSteps_length post _ 0 comments,
      fun j h => by simpa using postSteps_idx post _ comments 0 j h⟩
  · intro h1 h2
    rw [postCommentsToVCS,
      if_neg (by simp [JValue.truthy, hlen]), dif_neg h1, dif_neg h2]
  · intro msg llm nowIso hbt hs hcm hsrc hpr
    have hcond : task.source = "github" ∧ task.pullRequest.isSome :=
      ⟨hsrc, hpr⟩
    have hlpos : (0 : Int) < comments.length := by
      exact_mod_cast List.length_pos.mpr hne
    refine ⟨postSteps post
      (buildGithubCommentBody (task.pullRequest.get hcond.2)) 0 comments,
      ?_⟩
    simp only [queueProcessMessageCore, hbt, processLLMResponse, hs,
      Bool.true_eq_false, not_true_eq_false, if_false, ite_false,
      Bool.not_true, if_neg, hcm]
    simp [processLLMResponse, hs, hcm, postCommentsToVCS, hsrc, hpr,
      JValue.truthy, JValue.jlen, JValue.eqNum, JValue.gtZero, hne, hlpos,
      bind, Except.bind, pure, Except.pure, hcond]

/-- Witness for C8: two comments posted to `task7` with every post
failing (HTTP 500) are both attempted, in order. -/
theorem postCommentsToVCS_no_short_circuit_witness :
    ∃ evs, postCommentsToVCS (fun _ => .response 500 "e") task7
        (.arr [.obj [], .obj []]) = .ok evs ∧
      evs.length = [JValue.obj [], JValue.obj []].length ∧
      ∀ (j : Nat) (h : j < evs.length), cEventIdx (evs.get ⟨j, h⟩) = j :=
  (postCommentsToVCS_no_short_circuit (fun _ => .response 500 "e") task7
    [.obj [], .obj []] (fun h => List.noConfusion h)).1
    { id := .null, number := .num 7, headSha := .null, diffUrl := .null,
      commentsUrl := .null }
    rfl rfl
